import Mathlib

/-!
Shallow embedding of `src/SharpRemote/PostmortemDebugging.cpp`: the dump
lifecycle orchestrator (name validation, retention scan, dump file naming,
one-shot configuration, and the capture sequence), together with theorems
settling the specification claims about it.

Wide strings (`wchar_t*`) are modelled as Lean `String`; `FILETIME` values
as `Int` (only their ordering matters, via `CompareFileTime`); Win32 calls
whose outcome is decided by the outside world (`CreateDirectory`,
`CreateFile`, `LoadLibrary`, `GetProcAddress`, `MiniDumpWriteDump`,
`OpenProcess`, `GetLocalTime`) are oracles carried in an environment
record.  The filesystem directory scanned by the retention code is a list
of (file name, last-write time) entries in enumeration order; `DeleteFile`
succeeds exactly when the given full path names an entry of the directory.
-/

/-- Decides whether the character list `s` begins with the character list
`pat` (character-by-character comparison from the head). -/
def leadMatch : List Char → List Char → Bool
  | [], _ => true
  | _ :: _, [] => false
  | p :: ps, c :: cs => p == c && leadMatch ps cs

/-- Decides whether `pat` occurs as a contiguous substring of `s`; this is
the model of the C `wcsstr(s, pat) != nullptr` test. -/
def hasSub (pat : List Char) : List Char → Bool
  | [] => leadMatch pat []
  | c :: cs => leadMatch pat (c :: cs) || hasSub pat cs

theorem leadMatch_iff (pat s : List Char) :
    leadMatch pat s = true ↔ ∃ r, s = pat ++ r := by
  induction pat generalizing s with
  | nil => simp [leadMatch]
  | cons p ps ih =>
    cases s with
    | nil => simp [leadMatch]
    | cons c cs =>
      simp only [leadMatch, Bool.and_eq_true, beq_iff_eq, ih, List.cons_append,
        List.cons.injEq]
      constructor
      · rintro ⟨rfl, r, rfl⟩; exact ⟨r, rfl, rfl⟩
      · rintro ⟨r, rfl, rfl⟩; exact ⟨rfl, r, rfl⟩

theorem hasSub_iff (pat s : List Char) :
    hasSub pat s = true ↔ ∃ l r, s = l ++ pat ++ r := by
  induction s with
  | nil =>
    simp only [hasSub, leadMatch_iff]
    constructor
    · rintro ⟨r, h⟩
      exact ⟨[], r, h⟩
    · rintro ⟨l, r, h⟩
      rcases List.append_eq_nil.mp (List.append_eq_nil.mp h.symm).1 with ⟨rfl, rfl⟩
      exact ⟨r, h⟩
  | cons c cs ih =>
    simp only [hasSub, Bool.or_eq_true, leadMatch_iff, ih]
    constructor
    · rintro (⟨r, h⟩ | ⟨l, r, rfl⟩)
      · exact ⟨[], r, by simpa using h⟩
      · exact ⟨c :: l, r, rfl⟩
    · rintro ⟨l, r, h⟩
      cases l with
      | nil => exact Or.inl ⟨r, by simpa using h⟩
      | cons x xs =>
        rcases List.cons.injEq .. ▸ h with ⟨rfl, h2⟩
        exact Or.inr ⟨xs, r, by simpa using h2⟩

/-- Model of `CheckDumpNameConstraints` (PostmortemDebugging.cpp, lines
29-45): rejects a name containing a slash or backslash (`wcschr`), the
substrings `..`, `:`, `*`, `?`, `"` (`wcsstr`), or the empty name, and
accepts everything else. -/
def CheckDumpNameConstraints (dumpName : String) : Bool :=
  if dumpName.data.contains '/' || dumpName.data.contains '\\' ||
     hasSub ('.' :: '.' :: []) dumpName.data ||
     hasSub (':' :: []) dumpName.data ||
     hasSub ('*' :: []) dumpName.data ||
     hasSub ('?' :: []) dumpName.data ||
     hasSub ('\"' :: []) dumpName.data ||
     dumpName.length = 0 then
    false
  else
    true

theorem hasSub_singleton_iff (c : Char) (s : List Char) :
    hasSub (c :: []) s = true ↔ c ∈ s := by
  rw [hasSub_iff]
  constructor
  · rintro ⟨l, r, rfl⟩
    simp
  · intro h
    rcases List.mem_iff_append.mp h with ⟨l, r, rfl⟩
    exact ⟨l, r, by simp⟩

theorem singleton_decomp_iff (c : Char) (s : List Char) :
    (∃ l r, s = l ++ (c :: []) ++ r) ↔ c ∈ s :=
  (hasSub_iff (c :: []) s).symm.trans (hasSub_singleton_iff c s)

/-- Claim C4: `CheckDumpNameConstraints name` returns `true` exactly for the
non-empty names that contain no `/`, no `\`, no substring `..`, no `:`, no
`*`, no `?` and no `"`; equivalently it returns `false` exactly on the empty
name and on names containing one of those tokens. -/
theorem checkDumpNameConstraints_spec (name : String) :
    CheckDumpNameConstraints name = true ↔
      (name ≠ "" ∧ '/' ∉ name.data ∧ '\\' ∉ name.data ∧
       (¬ ∃ l r, name.data = l ++ ('.' :: '.' :: []) ++ r) ∧
       ':' ∉ name.data ∧ '*' ∉ name.data ∧ '?' ∉ name.data ∧
       '\"' ∉ name.data) := by
  unfold CheckDumpNameConstraints
  have hempty : name.length = 0 ↔ name = "" := by
    constructor
    · intro h
      cases name with
      | mk d =>
        cases d with
        | nil => rfl
        | cons c cs => simp [String.length] at h
    · rintro rfl; rfl
  split
  · rename_i h
    simp only [Bool.or_eq_true, List.contains, List.elem_eq_mem,
      decide_eq_true_eq, hasSub_iff, singleton_decomp_iff, hempty] at h
    constructor
    · intro hcontra
      exact absurd hcontra (by simp)
    · rintro ⟨hne, h1, h2, h3, h4, h5, h6, h7⟩
      rcases h with ((((((h | h) | h) | h) | h) | h) | h) | h
      · exact absurd h h1
      · exact absurd h h2
      · exact absurd h h3
      · exact absurd h h4
      · exact absurd h h5
      · exact absurd h h6
      · exact absurd h h7
      · exact absurd h hne
  · rename_i h
    simp only [Bool.or_eq_true, List.contains, List.elem_eq_mem,
      decide_eq_true_eq, hasSub_iff, singleton_decomp_iff, hempty,
      not_or] at h
    simp only [true_iff]
    exact ⟨h.2, h.1.1.1.1.1.1.1, h.1.1.1.1.1.1.2, h.1.1.1.1.1.2,
      h.1.1.1.1.2, h.1.1.1.2, h.1.1.2, h.1.2⟩

/-- Win32 `ERROR_ACCESS_DENIED`. -/
def ERROR_ACCESS_DENIED : Nat := 5

/-- Win32 `ERROR_BAD_ARGUMENTS`. -/
def ERROR_BAD_ARGUMENTS : Nat := 160

/-- Model of Win32 `SYSTEMTIME` as filled in by `GetLocalTime` (only the
fields the code reads). -/
structure SystemTime where
  wYear : Nat
  wMonth : Nat
  wDay : Nat
  wHour : Nat
  wMinute : Nat
  wSecond : Nat
deriving DecidableEq, Repr

/-- The process-wide globals of PostmortemDebugging.cpp (lines 16-27):
`_collectDumps`, `_numRetainedMinidumps`, `_dumpFolder`, `_dumpName`,
`_minidumpStringBuilder` (a `std::wstringstream` that is written to but
never cleared), `_minidumpFileName`, `_minidumpPattern`, plus the Win32
thread-local last-error value (`SetLastError`). -/
structure GlobalState where
  collectDumps : Bool
  numRetainedMinidumps : Int
  dumpFolder : String
  dumpName : String
  minidumpStringBuilder : String
  minidumpFileName : String
  minidumpPattern : String
  lastError : Option Nat
deriving DecidableEq, Repr

/-- The globals at process start: `_collectDumps = false`,
`_numRetainedMinidumps = 0`, all strings default-constructed empty. -/
def initialState : GlobalState :=
  { collectDumps := false
    numRetainedMinidumps := 0
    dumpFolder := ""
    dumpName := ""
    minidumpStringBuilder := ""
    minidumpFileName := ""
    minidumpPattern := ""
    lastError := none }

/-- Decides whether the character list `s` ends with the character list
`pat`. -/
def tailMatch (pat s : List Char) : Bool :=
  leadMatch pat.reverse s.reverse

/-- Model of `InitDumpCollection` (PostmortemDebugging.cpp, lines 320-365).
`pathIsRelative` is the oracle for the external `PathIsRelative` shell
call; the `wchar_t*` arguments are `Option String` so that `NULL` can be
passed.  The checks appear in source order: a second call is rejected with
`ERROR_ACCESS_DENIED` before anything else; then the argument checks each
reject with `ERROR_BAD_ARGUMENTS`; on success the globals are assigned and
`_collectDumps` becomes `true`.  (For an empty folder the C code indexes
`dumpFolder[length-1]`, which is undefined behaviour; the model rejects the
empty folder, which is also what the separator check demands.) -/
def InitDumpCollection (pathIsRelative : String → Bool)
    (numRetainedMinidumps : Int) (dumpFolder dumpName : Option String)
    (st : GlobalState) : GlobalState × Bool :=
  if st.collectDumps then
    ({ st with lastError := some ERROR_ACCESS_DENIED }, false)
  else if numRetainedMinidumps ≤ 0 || dumpFolder.isNone || dumpName.isNone then
    ({ st with lastError := some ERROR_BAD_ARGUMENTS }, false)
  else if (dumpFolder.getD "").data.contains '/' ||
          !tailMatch ('\\' :: []) (dumpFolder.getD "").data ||
          pathIsRelative (dumpFolder.getD "") then
    ({ st with lastError := some ERROR_BAD_ARGUMENTS }, false)
  else if CheckDumpNameConstraints (dumpName.getD "") = false then
    ({ st with lastError := some ERROR_BAD_ARGUMENTS }, false)
  else
    ({ st with
        numRetainedMinidumps := numRetainedMinidumps
        dumpFolder := dumpFolder.getD ""
        dumpName := dumpName.getD ""
        minidumpPattern := dumpFolder.getD "" ++ dumpName.getD "" ++ "*.dmp"
        collectDumps := true }, true)

/-- Model of `CreateMinidumpFileName` (PostmortemDebugging.cpp, lines
151-177) at local time `t`.  The code streams into the process-wide
`_minidumpStringBuilder`, which is never reset, and stores the stream's
whole accumulated contents into `_minidumpFileName`; only the day and the
month get a leading `'0'` when below 10. -/
def CreateMinidumpFileName (st : GlobalState) (t : SystemTime) : GlobalState :=
  let name := st.minidumpStringBuilder
  let name := name ++ st.dumpFolder
  let name := name ++ st.dumpName
  let name := name ++ "_"
  let name := if t.wDay < 10 then name ++ "0" else name
  let name := name ++ toString t.wDay ++ "."
  let name := if t.wMonth < 10 then name ++ "0" else name
  let name := name ++ toString t.wMonth
  let name := name ++ "." ++ toString t.wYear
  let name := name ++ " - " ++ toString t.wHour ++ "_" ++
    toString t.wMinute ++ "_" ++ toString t.wSecond
  let name := name ++ ".dmp"
  { st with minidumpStringBuilder := name, minidumpFileName := name }

/-- Zero-pads a number below 10 to two digits. -/
def pad2 (n : Nat) : String :=
  (if n < 10 then "0" else "") ++ toString n

/-- The file-name text one capture contributes: folder, base name, and the
timestamp with day and month zero-padded and hour/minute/second unpadded. -/
def dumpNameText (folder base : String) (t : SystemTime) : String :=
  folder ++ base ++ "_" ++ pad2 t.wDay ++ "." ++ pad2 t.wMonth ++ "." ++
    toString t.wYear ++ " - " ++ toString t.wHour ++ "_" ++
    toString t.wMinute ++ "_" ++ toString t.wSecond ++ ".dmp"

/-- The dump file name as claim C5 words it: every one of day, month, hour,
minute and second is zero-padded to two digits when it is a single digit. -/
def specPaddedFileName (folder base : String) (t : SystemTime) : String :=
  folder ++ base ++ "_" ++ pad2 t.wDay ++ "." ++ pad2 t.wMonth ++ "." ++
    toString t.wYear ++ " - " ++ pad2 t.wHour ++ "_" ++
    pad2 t.wMinute ++ "_" ++ pad2 t.wSecond ++ ".dmp"

/-- A directory entry as seen by `FindFirstFile`/`FindNextFile`: the bare
file name (`cFileName`) and the last-write time (`ftLastWriteTime`,
modelled as an integer since only `CompareFileTime` ordering is used). -/
structure MiniFile where
  name : String
  time : Int
deriving DecidableEq, Repr

/-- Whether a file name matches the enumeration glob `base*.dmp` used by
the retention scan: it starts with `base`, ends with `.dmp`, and is long
enough that the two parts do not overlap. -/
def matchesDumpGlob (base name : String) : Bool :=
  leadMatch base.data name.data &&
  tailMatch ('.' :: 'd' :: 'm' :: 'p' :: []) name.data &&
  base.length + 4 ≤ name.length

/-- Model of `DeleteFile` against a directory listing: deleting full path
`path` from the directory `dir` (whose entries live in folder `folder`)
removes the first entry whose full path `folder ++ name` equals `path` and
returns the new listing; when no entry has that path the call fails
(`none`, the code's `DeleteFile == FALSE`). -/
def deleteFromDir (folder path : String) : List MiniFile → Option (List MiniFile)
  | [] => none
  | e :: rest =>
    if folder ++ e.name = path then
      some rest
    else
      (deleteFromDir folder path rest).map (e :: ·)

/-- The `do { ... } while (FindNextFile(...))` loop of `RemoveOldMinidumps`
(PostmortemDebugging.cpp, lines 111-144).  Arguments: the remaining
enumeration snapshot, `numFiles`, `oldestFileTime`, `_oldestFileFullName`,
and the current directory listing.  Exactly as in the source: `_tmpPath` is
the *pattern* string (`const wchar_t* folder = _minidumpPattern.c_str()`)
with the entry's bare name appended; the oldest candidate is updated before
the quota check (`CompareFileTime == 1` means the stored time is newer than
the entry's); when `numFiles + 1 >= _numRetainedMinidumps` the candidate is
deleted and `numFiles` is *not* incremented (and the candidate is not
advanced); a failed `DeleteFile` aborts the whole scan with `FALSE`. -/
def removeOldLoop (st : GlobalState) :
    List MiniFile → Int → Int → String → List MiniFile → List MiniFile × Bool
  | [], _, _, _, dir => (dir, true)
  | e :: rest, numFiles, oldestFileTime, oldestFileFullName, dir =>
    if e.name = "." || e.name = ".." then
      removeOldLoop st rest numFiles oldestFileTime oldestFileFullName dir
    else
      let tmpPath := st.minidumpPattern ++ e.name
      let oldestFileTime' :=
        if numFiles = 0 then e.time
        else if oldestFileTime > e.time then e.time
        else oldestFileTime
      let oldestFileFullName' :=
        if numFiles = 0 then tmpPath
        else if oldestFileTime > e.time then tmpPath
        else oldestFileFullName
      if numFiles + 1 ≥ st.numRetainedMinidumps then
        match deleteFromDir st.dumpFolder oldestFileFullName' dir with
        | none => (dir, false)
        | some dir' =>
          removeOldLoop st rest numFiles oldestFileTime' oldestFileFullName' dir'
      else
        removeOldLoop st rest (numFiles + 1) oldestFileTime' oldestFileFullName' dir

/-- Model of `RemoveOldMinidumps` (PostmortemDebugging.cpp, lines 85-149)
run against the directory listing `dir` (the folder `_dumpFolder` is
assumed to exist, as `CreateMinidumpFolder` ran first).  `FindFirstFile`
on `_minidumpPattern` enumerates the entries matching `base*.dmp`; when
nothing matches it fails with `ERROR_FILE_NOT_FOUND` and the function
returns `TRUE` having deleted nothing; otherwise the scan loop runs on
the matching snapshot.  Returns the directory listing afterwards and the
function's `BOOL` result. -/
def RemoveOldMinidumps (st : GlobalState) (dir : List MiniFile) :
    List MiniFile × Bool :=
  let matching := dir.filter (fun e => matchesDumpGlob st.dumpName e.name)
  match matching with
  | [] => (dir, true)
  | _ :: _ => removeOldLoop st matching 0 0 "" dir

/-- Opaque stand-in for an `EXCEPTION_POINTERS*` value in the caller's
address space; a `Option ExcPtr` of `none` is the null pointer. -/
structure ExcPtr where
  addr : Nat
deriving DecidableEq, Repr

/-- The `MINIDUMP_EXCEPTION_INFORMATION` record the capture fills in
(PostmortemDebugging.cpp, lines 227-231). -/
structure MinidumpExcInfo where
  threadId : Nat
  exceptionPointers : Option ExcPtr
  clientPointers : Bool
deriving DecidableEq, Repr

/-- Oracles for the external calls one capture makes: whether directory
creation succeeds as a whole (`CreateMinidumpFolder`), the directory
listing the retention scan sees, whether `CreateFile` yields a valid
handle, whether `LoadLibrary("DbgHelp.dll")` and
`GetProcAddress("MiniDumpWriteDump")` resolve, what `MiniDumpWriteDump`
returns, the local time `GetLocalTime` reports, and the current thread id. -/
structure Env where
  createFolderOk : Bool
  dir : List MiniFile
  createFileOk : Bool
  loadLibraryOk : Bool
  getProcOk : Bool
  writeDumpOk : Bool
  time : SystemTime
  threadId : Nat
deriving DecidableEq, Repr

/-- Everything observable one run of the internal `CreateMiniDump` did:
the file name it built (`none` when it aborted before naming), whether the
output file was created, the argument the dump writer was invoked with
(`none`: writer never called; `some none`: called with a null exception
record; `some (some info)`: called with `&info`), the writer's returned
`BOOL` when called, whether `CloseHandle` was called on the output file,
and the directory listing after the retention scan. -/
structure CaptureResult where
  fileName : Option String
  fileCreated : Bool
  writerArg : Option (Option MinidumpExcInfo)
  writeResult : Option Bool
  fileClosed : Bool
  dirAfter : List MiniFile
deriving DecidableEq, Repr

/-- Model of the internal `CreateMiniDump(exceptionPointers, processHandle,
processId, dumpName)` (PostmortemDebugging.cpp, lines 179-258).  Failure of
`CreateMinidumpFolder` aborts; failure of `RemoveOldMinidumps` is only
logged and the capture proceeds; the file name is built into the global
stream; `CreateFile` failure aborts; `LoadLibrary`/`GetProcAddress` failure
aborts *without closing the created file*; otherwise the writer is invoked
with `&info` (with `ClientPointers = TRUE`) exactly when
`exceptionPointers` is non-null, and `CloseHandle` runs regardless of the
writer's result.  The `dumpName` parameter is accepted and never used, as
in the source. -/
def CreateMiniDumpInternal (env : Env) (st : GlobalState)
    (exceptionPointers : Option ExcPtr) (dumpName : String) :
    GlobalState × CaptureResult :=
  if env.createFolderOk = false then
    (st, ⟨none, false, none, none, false, env.dir⟩)
  else
    let rm := RemoveOldMinidumps st env.dir
    let st1 := CreateMinidumpFileName st env.time
    let fn := st1.minidumpFileName
    if env.createFileOk = false then
      (st1, ⟨some fn, false, none, none, false, rm.1⟩)
    else if env.loadLibraryOk = false then
      (st1, ⟨some fn, true, none, none, false, rm.1⟩)
    else if env.getProcOk = false then
      (st1, ⟨some fn, true, none, none, false, rm.1⟩)
    else
      let info : MinidumpExcInfo :=
        { threadId := env.threadId
          exceptionPointers := exceptionPointers
          clientPointers := true }
      let arg : Option MinidumpExcInfo :=
        if exceptionPointers.isSome then some info else none
      (st1, ⟨some fn, true, some arg, some env.writeDumpOk, true, rm.1⟩)

/-- Oracles for the public entry point: whether `OpenProcess` on the target
succeeds, and the environment of the inner capture. -/
structure PublicEnv where
  openProcessOk : Bool
  cap : Env
deriving DecidableEq, Repr

/-- Model of the exported `CreateMiniDump(processId, dumpName)`
(PostmortemDebugging.cpp, lines 405-442): access denied when collection
was never initialized, bad arguments when the name fails validation,
plain `FALSE` when `OpenProcess` fails; otherwise the internal capture
runs with a null exception pointer and the function returns `TRUE`
unconditionally.  The middle component is `some` of the capture's
observable result when the capture ran. -/
def CreateMiniDumpPublic (penv : PublicEnv) (st : GlobalState)
    (processId : Int) (dumpName : String) :
    GlobalState × Option CaptureResult × Bool :=
  if st.collectDumps = false then
    ({ st with lastError := some ERROR_ACCESS_DENIED }, none, false)
  else if CheckDumpNameConstraints dumpName = false then
    ({ st with lastError := some ERROR_BAD_ARGUMENTS }, none, false)
  else if penv.openProcessOk = false then
    (st, none, false)
  else
    let r := CreateMiniDumpInternal penv.cap st none dumpName
    (r.1, some r.2, true)

/-- An armed configuration: retained count 1, folder `F:\`, base name `a`;
exactly the state a successful `InitDumpCollection(1, L"F:\\", L"a")`
leaves behind (see `armedState_from_init`). -/
def armedState : GlobalState :=
  { collectDumps := true
    numRetainedMinidumps := 1
    dumpFolder := "F:\\"
    dumpName := "a"
    minidumpStringBuilder := ""
    minidumpFileName := ""
    minidumpPattern := "F:\\a*.dmp"
    lastError := none }

theorem armedState_from_init :
    InitDumpCollection (fun _ => false) 1 (some "F:\\") (some "a")
      initialState = (armedState, true) := by
  decide

/-- A directory holding two matching dump files with distinct last-write
times. -/
def dirTwo : List MiniFile := ⟨"a1.dmp", 1⟩ :: ⟨"a2.dmp", 2⟩ :: []

/-- Claim C1 (code bug): with `retainedCount = 1` and a directory holding
`1 + 1` matching dump files of distinct timestamps, `RemoveOldMinidumps`
deletes nothing and returns `FALSE`, so the directory still holds two
matching files instead of exactly the one most-recently-written.  The scan
builds the deletion path by appending the entry's bare name to the glob
*pattern* (`const wchar_t* folder = _minidumpPattern.c_str();
_tmpPath.append(folder); _tmpPath.append(fdFile.cFileName)`), so
`DeleteFile` is invoked on the nonexistent path `F:\a*.dmpa1.dmp` and
fails, aborting the scan. -/
theorem removeOldMinidumps_quota_violated :
    RemoveOldMinidumps armedState dirTwo = (dirTwo, false) ∧
    (RemoveOldMinidumps armedState dirTwo).1.length = 2 ∧
    armedState.numRetainedMinidumps = 1 := by
  decide

/-- Claim C2: once a first `InitDumpCollection` has succeeded, every
further call fails, sets the last error to `ERROR_ACCESS_DENIED`, and
leaves the stored retained count, folder, base name and enumeration
pattern untouched, so a later capture still builds its file name from the
folder and base name of the first call. -/
theorem initDumpCollection_second_call_fails
    (rel : String → Bool) (n1 n2 : Int) (f1 f2 d1 d2 : Option String)
    (st0 st1 : GlobalState)
    (h : InitDumpCollection rel n1 f1 d1 st0 = (st1, true)) :
    (InitDumpCollection rel n2 f2 d2 st1).2 = false ∧
    (InitDumpCollection rel n2 f2 d2 st1).1.lastError =
      some ERROR_ACCESS_DENIED ∧
    (InitDumpCollection rel n2 f2 d2 st1).1.numRetainedMinidumps =
      st1.numRetainedMinidumps ∧
    (InitDumpCollection rel n2 f2 d2 st1).1.dumpFolder = st1.dumpFolder ∧
    (InitDumpCollection rel n2 f2 d2 st1).1.dumpName = st1.dumpName ∧
    (InitDumpCollection rel n2 f2 d2 st1).1.minidumpPattern =
      st1.minidumpPattern ∧
    ∀ t, (CreateMinidumpFileName (InitDumpCollection rel n2 f2 d2 st1).1
            t).minidumpFileName =
         (CreateMinidumpFileName st1 t).minidumpFileName := by
  have hc : st1.collectDumps = true := by
    unfold InitDumpCollection at h
    split at h
    · exact absurd (congrArg Prod.snd h) Bool.false_ne_true
    · split at h
      · exact absurd (congrArg Prod.snd h) Bool.false_ne_true
      · split at h
        · exact absurd (congrArg Prod.snd h) Bool.false_ne_true
        · split at h
          · exact absurd (congrArg Prod.snd h) Bool.false_ne_true
          · exact (congrArg (fun p => p.1.collectDumps) h).symm
  unfold InitDumpCollection
  rw [hc]
  simp [CreateMinidumpFileName]

/-- Concrete instance for `initDumpCollection_second_call_fails`: a first
successful initialization followed by a second attempt, which fails with
`ERROR_ACCESS_DENIED` and preserves the configuration. -/
theorem initDumpCollection_second_call_fails_witness :
    (InitDumpCollection (fun _ => false) 2 (some "G:\\") (some "b")
       armedState).2 = false ∧
    (InitDumpCollection (fun _ => false) 2 (some "G:\\") (some "b")
       armedState).1.lastError = some ERROR_ACCESS_DENIED ∧
    (InitDumpCollection (fun _ => false) 2 (some "G:\\") (some "b")
       armedState).1.numRetainedMinidumps =
      armedState.numRetainedMinidumps ∧
    (InitDumpCollection (fun _ => false) 2 (some "G:\\") (some "b")
       armedState).1.dumpFolder = armedState.dumpFolder ∧
    (InitDumpCollection (fun _ => false) 2 (some "G:\\") (some "b")
       armedState).1.dumpName = armedState.dumpName ∧
    (InitDumpCollection (fun _ => false) 2 (some "G:\\") (some "b")
       armedState).1.minidumpPattern = armedState.minidumpPattern ∧
    ∀ t, (CreateMinidumpFileName (InitDumpCollection (fun _ => false) 2
            (some "G:\\") (some "b") armedState).1 t).minidumpFileName =
         (CreateMinidumpFileName armedState t).minidumpFileName :=
  initDumpCollection_second_call_fails (fun _ => false) 1 2
    (some "F:\\") (some "G:\\") (some "a") (some "b")
    initialState armedState armedState_from_init

theorem minidumpFileName_eq (st : GlobalState) (t : SystemTime) :
    (CreateMinidumpFileName st t).minidumpFileName =
      st.minidumpStringBuilder ++ dumpNameText st.dumpFolder st.dumpName t := by
  simp only [CreateMinidumpFileName, dumpNameText, pad2]
  split <;> split <;>
    simp only [String.append_assoc, String.empty_append]

/-- Claim C5 counterexample: at local time 2024-03-05 09:07:02 the code
produces `F:\a_05.03.2024 - 9_7_2.dmp`, not the fully padded
`F:\a_05.03.2024 - 09_07_02.dmp` the claim describes: hour, minute and
second are written without padding. -/
theorem createMinidumpFileName_padding_counterexample :
    (CreateMinidumpFileName armedState ⟨2024, 3, 5, 9, 7, 2⟩).minidumpFileName
      = "F:\\a_05.03.2024 - 9_7_2.dmp" ∧
    specPaddedFileName "F:\\" "a" ⟨2024, 3, 5, 9, 7, 2⟩
      = "F:\\a_05.03.2024 - 09_07_02.dmp" ∧
    (CreateMinidumpFileName armedState ⟨2024, 3, 5, 9, 7, 2⟩).minidumpFileName
      ≠ specPaddedFileName armedState.dumpFolder armedState.dumpName
          ⟨2024, 3, 5, 9, 7, 2⟩ := by
  refine ⟨by decide, by decide, by decide⟩

/-- Claim C5 as amended: for every wall-clock time the generated name text
zero-pads only the day and the month to two digits; the hour, minute and
second components are appended unpadded (and the whole text is appended to
the accumulated contents of the shared, never-cleared string builder). -/
theorem createMinidumpFileName_pads_day_month_only (st : GlobalState)
    (t : SystemTime) :
    (CreateMinidumpFileName st t).minidumpFileName =
      st.minidumpStringBuilder ++ st.dumpFolder ++ st.dumpName ++ "_" ++
      pad2 t.wDay ++ "." ++ pad2 t.wMonth ++ "." ++ toString t.wYear ++
      " - " ++ toString t.wHour ++ "_" ++ toString t.wMinute ++ "_" ++
      toString t.wSecond ++ ".dmp" := by
  rw [minidumpFileName_eq]
  simp only [dumpNameText, String.append_assoc]

/-- Capture environment in which every external call succeeds but the
retention scan fails (the directory holds two matching files, one more
than the retained count of `armedState`, and deletion fails as in
`removeOldMinidumps_quota_violated`). -/
def envRetFail : Env :=
  { createFolderOk := true
    dir := dirTwo
    createFileOk := true
    loadLibraryOk := true
    getProcOk := true
    writeDumpOk := true
    time := ⟨2024, 3, 5, 9, 7, 2⟩
    threadId := 44 }

/-- Claim C3: when the retention scan returns `FALSE` during a capture the
failure is ignored: the capture still builds the file name, creates the
output file, and invokes the dump writer (provided those later steps
themselves succeed). -/
theorem capture_survives_retention_failure (env : Env) (st : GlobalState)
    (exc : Option ExcPtr) (n : String)
    (h1 : env.createFolderOk = true)
    (h2 : (RemoveOldMinidumps st env.dir).2 = false)
    (h3 : env.createFileOk = true)
    (h4 : env.loadLibraryOk = true)
    (h5 : env.getProcOk = true) :
    (CreateMiniDumpInternal env st exc n).2.fileName =
      some (CreateMinidumpFileName st env.time).minidumpFileName ∧
    (CreateMiniDumpInternal env st exc n).2.fileCreated = true ∧
    (CreateMiniDumpInternal env st exc n).2.writerArg.isSome = true := by
  simp [CreateMiniDumpInternal, h1, h3, h4, h5]

/-- Concrete instance for `capture_survives_retention_failure`: the
retention scan over `dirTwo` fails, yet the capture creates the dump file
and calls the writer. -/
theorem capture_survives_retention_failure_witness :
    (RemoveOldMinidumps armedState envRetFail.dir).2 = false ∧
    ((CreateMiniDumpInternal envRetFail armedState none "a").2.fileName =
       some (CreateMinidumpFileName armedState envRetFail.time).minidumpFileName ∧
     (CreateMiniDumpInternal envRetFail armedState none "a").2.fileCreated = true ∧
     (CreateMiniDumpInternal envRetFail armedState none "a").2.writerArg.isSome = true) :=
  ⟨by decide,
   capture_survives_retention_failure envRetFail armedState none "a"
     (by decide) (by decide) (by decide) (by decide) (by decide)⟩

/-- Capture environment in which the output file is created but
`LoadLibrary("DbgHelp.dll")` fails. -/
def envNoDbgHelp : Env :=
  { createFolderOk := true
    dir := []
    createFileOk := true
    loadLibraryOk := false
    getProcOk := true
    writeDumpOk := true
    time := ⟨2024, 3, 5, 9, 7, 2⟩
    threadId := 44 }

/-- Claim C6 counterexample: when `CreateFile` succeeds but the
dump-writing facility cannot be resolved, the capture returns without
closing the created file handle — the handle leaks. -/
theorem capture_handle_leak_counterexample :
    (CreateMiniDumpInternal envNoDbgHelp armedState none "a").2.fileCreated
      = true ∧
    (CreateMiniDumpInternal envNoDbgHelp armedState none "a").2.fileClosed
      = false := by
  refine ⟨by decide, by decide⟩

/-- Claim C6 as amended: whenever the output file is created *and* the
dump-writing facility resolves (`LoadLibrary` and `GetProcAddress` both
succeed), the handle is closed before the capture returns, regardless of
whether the dump write itself succeeded or failed; when the facility does
not resolve, the capture returns without closing the handle. -/
theorem capture_closes_file_when_facility_resolves (env : Env)
    (st : GlobalState) (exc : Option ExcPtr) (n : String)
    (h1 : env.createFolderOk = true)
    (h2 : env.createFileOk = true)
    (h3 : env.loadLibraryOk = true)
    (h4 : env.getProcOk = true) :
    (CreateMiniDumpInternal env st exc n).2.fileClosed = true := by
  simp [CreateMiniDumpInternal, h1, h2, h3, h4]

/-- Capture environment in which everything resolves but the dump write
itself returns `FALSE`. -/
def envWriteFail : Env :=
  { createFolderOk := true
    dir := []
    createFileOk := true
    loadLibraryOk := true
    getProcOk := true
    writeDumpOk := false
    time := ⟨2024, 3, 5, 9, 7, 2⟩
    threadId := 44 }

/-- Concrete instance for `capture_closes_file_when_facility_resolves`:
the write fails, the handle is still closed. -/
theorem capture_closes_file_when_facility_resolves_witness :
    (CreateMiniDumpInternal envWriteFail armedState none "a").2.fileClosed
      = true :=
  capture_closes_file_when_facility_resolves envWriteFail armedState none "a"
    rfl rfl rfl rfl

/-- Claim C7: whenever the dump writer is actually invoked, a capture with
a non-null fault context passes an exception-information record whose
`ClientPointers` flag is `TRUE` and whose `ExceptionPointers` field is the
supplied context, while a capture with a null context passes a null
exception-information pointer. -/
theorem writer_exception_info (env : Env) (st : GlobalState) (n : String)
    (c : ExcPtr)
    (h1 : env.createFolderOk = true)
    (h2 : env.createFileOk = true)
    (h3 : env.loadLibraryOk = true)
    (h4 : env.getProcOk = true) :
    (CreateMiniDumpInternal env st (some c) n).2.writerArg =
      some (some { threadId := env.threadId
                   exceptionPointers := some c
                   clientPointers := true }) ∧
    (CreateMiniDumpInternal env st none n).2.writerArg = some none := by
  simp [CreateMiniDumpInternal, h1, h2, h3, h4]

/-- Capture environment in which every external call succeeds over an
empty directory. -/
def envAllOk : Env :=
  { createFolderOk := true
    dir := []
    createFileOk := true
    loadLibraryOk := true
    getProcOk := true
    writeDumpOk := true
    time := ⟨2024, 3, 5, 9, 7, 2⟩
    threadId := 44 }

/-- Concrete instance for `writer_exception_info` with fault context
address 7 on thread 44. -/
theorem writer_exception_info_witness :
    (CreateMiniDumpInternal envAllOk armedState (some ⟨7⟩) "a").2.writerArg =
      some (some { threadId := envAllOk.threadId
                   exceptionPointers := some ⟨7⟩
                   clientPointers := true }) ∧
    (CreateMiniDumpInternal envAllOk armedState none "a").2.writerArg =
      some none :=
  writer_exception_info envAllOk armedState "a" ⟨7⟩ rfl rfl rfl rfl

/-- Claim C8: the exported `CreateMiniDump(processId, dumpName)` checks, in
order: collection never initialized (fails, `ERROR_ACCESS_DENIED`), dump
name invalid (fails, `ERROR_BAD_ARGUMENTS`), `OpenProcess` failure (fails
without touching the state).  The first conjunct holds for every name and
every environment, and the second for every environment, which is what
"applied in that order" means observably. -/
theorem createMiniDump_failure_order (penv : PublicEnv) (st : GlobalState)
    (pid : Int) (name : String) :
    (st.collectDumps = false →
      (CreateMiniDumpPublic penv st pid name).2.2 = false ∧
      (CreateMiniDumpPublic penv st pid name).1.lastError =
        some ERROR_ACCESS_DENIED) ∧
    (st.collectDumps = true → CheckDumpNameConstraints name = false →
      (CreateMiniDumpPublic penv st pid name).2.2 = false ∧
      (CreateMiniDumpPublic penv st pid name).1.lastError =
        some ERROR_BAD_ARGUMENTS) ∧
    (st.collectDumps = true → CheckDumpNameConstraints name = true →
      penv.openProcessOk = false →
      (CreateMiniDumpPublic penv st pid name).2.2 = false ∧
      (CreateMiniDumpPublic penv st pid name).1 = st ∧
      (CreateMiniDumpPublic penv st pid name).2.1 = none) := by
  refine ⟨fun h => ?_, fun h hn => ?_, fun h hn ho => ?_⟩ <;>
    simp [CreateMiniDumpPublic, h, *]

/-- The public environment in which the target process cannot be opened. -/
def penvNoOpen : PublicEnv :=
  { openProcessOk := false, cap := envAllOk }

/-- Concrete instances for `createMiniDump_failure_order`: an invalid name
on an uninitialized state still reports access denied; an invalid name on
an armed state reports bad arguments even though `OpenProcess` would also
fail; a valid name on an armed state fails only because of `OpenProcess`. -/
theorem createMiniDump_failure_order_witness :
    ((CreateMiniDumpPublic penvNoOpen initialState 1 "a/b").2.2 = false ∧
     (CreateMiniDumpPublic penvNoOpen initialState 1 "a/b").1.lastError =
       some ERROR_ACCESS_DENIED) ∧
    ((CreateMiniDumpPublic penvNoOpen armedState 1 "a/b").2.2 = false ∧
     (CreateMiniDumpPublic penvNoOpen armedState 1 "a/b").1.lastError =
       some ERROR_BAD_ARGUMENTS) ∧
    ((CreateMiniDumpPublic penvNoOpen armedState 1 "b").2.2 = false ∧
     (CreateMiniDumpPublic penvNoOpen armedState 1 "b").1 = armedState ∧
     (CreateMiniDumpPublic penvNoOpen armedState 1 "b").2.1 = none) :=
  ⟨(createMiniDump_failure_order penvNoOpen initialState 1 "a/b").1 rfl,
   (createMiniDump_failure_order penvNoOpen armedState 1 "a/b").2.1 rfl
     (by decide),
   (createMiniDump_failure_order penvNoOpen armedState 1 "b").2.2 rfl
     (by decide) rfl⟩

/-- Capture environment for a first capture at 2024-01-02 03:04:05. -/
def envCap1 : Env :=
  { createFolderOk := true
    dir := []
    createFileOk := true
    loadLibraryOk := true
    getProcOk := true
    writeDumpOk := true
    time := ⟨2024, 1, 2, 3, 4, 5⟩
    threadId := 44 }

/-- Capture environment for a second capture one second later. -/
def envCap2 : Env :=
  { envCap1 with time := ⟨2024, 1, 2, 3, 4, 6⟩ }

/-- The globals after a first successful capture from `armedState`. -/
def stAfterFirstCapture : GlobalState :=
  (CreateMiniDumpInternal envCap1 armedState none "a").1

/-- Claim C9 counterexample: on the second capture of a process lifetime
the written file name is *not* the configured base name plus the current
local time: the shared string builder is never cleared, so the second name
is the first full name with the new one appended (`F:\a_02.01.2024 -
3_4_5.dmpF:\a_02.01.2024 - 3_4_6.dmp`).  It still does not depend on the
`dumpName` argument. -/
theorem second_capture_name_polluted :
    (CreateMiniDumpInternal envCap2 stAfterFirstCapture none "x").2.fileName =
      some ("F:\\a_02.01.2024 - 3_4_5.dmp" ++ "F:\\a_02.01.2024 - 3_4_6.dmp") ∧
    (CreateMiniDumpInternal envCap2 stAfterFirstCapture none "x").2.fileName ≠
      some (dumpNameText armedState.dumpFolder armedState.dumpName
        envCap2.time) := by
  refine ⟨by decide, by decide⟩

/-- Claim C9 as amended: the `dumpName` argument of the capture routine
influences only validation, never the output path — the internal capture's
result is literally independent of it, and the public entry point behaves
identically for any two valid names; the file name a capture writes is the
accumulated builder contents followed by `dumpNameText` of the configured
folder, configured base name and current local time (so on the first
capture, when the builder is empty, exactly the configured base name plus
the time — never the supplied name). -/
theorem dumpName_never_influences_output (env : Env) (st : GlobalState)
    (exc : Option ExcPtr) (penv : PublicEnv) (pid : Int) (n1 n2 : String)
    (hv1 : CheckDumpNameConstraints n1 = true)
    (hv2 : CheckDumpNameConstraints n2 = true) :
    CreateMiniDumpInternal env st exc n1 =
      CreateMiniDumpInternal env st exc n2 ∧
    (env.createFolderOk = true →
      (CreateMiniDumpInternal env st exc n1).2.fileName =
        some (st.minidumpStringBuilder ++
          dumpNameText st.dumpFolder st.dumpName env.time)) ∧
    CreateMiniDumpPublic penv st pid n1 = CreateMiniDumpPublic penv st pid n2 := by
  refine ⟨rfl, fun h => ?_, ?_⟩
  · rw [← minidumpFileName_eq st env.time]
    simp only [CreateMiniDumpInternal, h]
    split_ifs <;> simp_all
  · have hint : CreateMiniDumpInternal penv.cap st none n1 =
        CreateMiniDumpInternal penv.cap st none n2 := rfl
    simp [CreateMiniDumpPublic, hv1, hv2, hint]

/-- Concrete instance for `dumpName_never_influences_output`: two valid
but different names produce identical captures, and the file name is built
from the configured base name `a`, not from either supplied name. -/
theorem dumpName_never_influences_output_witness :
    (CreateMiniDumpInternal envCap1 armedState none "x" =
       CreateMiniDumpInternal envCap1 armedState none "y" ∧
     (envCap1.createFolderOk = true →
       (CreateMiniDumpInternal envCap1 armedState none "x").2.fileName =
         some (armedState.minidumpStringBuilder ++
           dumpNameText armedState.dumpFolder armedState.dumpName
             envCap1.time)) ∧
     CreateMiniDumpPublic ⟨true, envCap1⟩ armedState 1 "x" =
       CreateMiniDumpPublic ⟨true, envCap1⟩ armedState 1 "y") :=
  dumpName_never_influences_output envCap1 armedState none ⟨true, envCap1⟩ 1
    "x" "y" (by decide) (by decide)

/-- Claim C10: whenever collection is initialized, the name is valid and
`OpenProcess` succeeds, the exported `CreateMiniDump` returns `TRUE` — for
*every* capture environment, including ones where folder creation, file
creation, facility resolution or the write itself fail. -/
theorem createMiniDump_true_despite_failures (penv : PublicEnv)
    (st : GlobalState) (pid : Int) (name : String)
    (h1 : st.collectDumps = true)
    (h2 : CheckDumpNameConstraints name = true)
    (h3 : penv.openProcessOk = true) :
    (CreateMiniDumpPublic penv st pid name).2.2 = true := by
  simp [CreateMiniDumpPublic, h1, h2, h3]

/-- The public environment in which the target opens but every later step
of the capture fails. -/
def penvAllFail : PublicEnv :=
  { openProcessOk := true
    cap :=
      { createFolderOk := false
        dir := []
        createFileOk := false
        loadLibraryOk := false
        getProcOk := false
        writeDumpOk := false
        time := ⟨2024, 3, 5, 9, 7, 2⟩
        threadId := 44 } }

/-- Concrete instance for `createMiniDump_true_despite_failures`: every
capture step fails — no file name built, no file created, no writer call —
yet the exported function still returns `TRUE`. -/
theorem createMiniDump_true_despite_failures_witness :
    (CreateMiniDumpPublic penvAllFail armedState 1 "b").2.2 = true ∧
    (CreateMiniDumpPublic penvAllFail armedState 1 "b").2.1 =
      some ⟨none, false, none, none, false, []⟩ :=
  ⟨createMiniDump_true_despite_failures penvAllFail armedState 1 "b" rfl
     (by decide) rfl,
   by decide⟩
